import Mathlib

/-!
Verification development for the hulk control-cycle core.

Shallow embedding of the Rust sources in
`crates/control/src/game_controller_state_filter.rs`,
`crates/control/src/motion/motion_selector.rs`,
`crates/control/src/motion/step_planner.rs`,
`crates/walking_engine/src/kick_state.rs` and
`crates/control/src/sensor_data_receiver.rs`.

Modelling conventions:
* `SystemTime` and `Duration` are modelled as natural numbers (abstract time
  units).  Rust's `SystemTime::duration_since(..).unwrap()` is modelled by
  truncated natural subtraction; theorems that depend on elapsed time carry
  the `earlier ≤ now` hypothesis under which the two agree.
* `f32` values of the game-state filter are modelled as rationals, which keeps
  every predicate decidable.  The single use of a Euclidean distance is
  encoded by the equivalent squared comparison (see `distance_gt`).
* `f32` values of the step planner are modelled as real numbers because the
  walk volume uses `powf` with arbitrary real exponents (`Real.rpow`).
  `f32::is_sign_positive` is modelled as `0 ≤ x` (the sign of negative zero
  is not observable on the reals; it only selects between two divisors that
  agree at zero).
* Types whose defining crate is not part of the provided sources
  (`spl_network_messages::game_controller_state_message`, `types::*` except
  `motion_selection`, the `filtering` and `kinematics` crates) are modelled
  from their use sites and from the specification; each such definition says
  so in its doc comment.
-/

namespace Hulk

/-! ## Game-state filter: basic data (crates/control/src/game_controller_state_filter.rs) -/

namespace GameFilter

/-- Modelled from the spec: raw game state of the external game controller
(`spl_network_messages::GameState`; the defining module is not in `src/`).
The variants are exactly the ones matched in the filter. -/
inductive GameState
  | initial
  | ready
  | set
  | playing
  | finished
  | standby
  deriving DecidableEq, Repr

/-- Modelled from the spec: the two teams as seen by the filter
(`spl_network_messages::Team`; not in `src/`). -/
inductive Team
  | hulks
  | opponent
  deriving DecidableEq, Repr

/-- Modelled from the spec: game phase (`spl_network_messages::GamePhase`,
not in `src/`).  The filter only distinguishes `PenaltyShootout` from the
rest; the other phases are kept as plain variants. -/
inductive GamePhase
  | normal
  | penaltyShootout (kicking_team : Team)
  | overtime
  | timeout
  deriving DecidableEq, Repr

/-- Modelled from the spec: referee sub-state (`spl_network_messages::SubState`,
not in `src/`), with the variants the filter matches on. -/
inductive SubState
  | cornerKick
  | goalKick
  | penaltyKick
  | pushingFreeKick
  | kickIn
  deriving DecidableEq, Repr

/-- Modelled from the spec: a penalty (`spl_network_messages::Penalty`, not in
`src/`).  The filter only tests for `IllegalMotionInSet`; every other penalty
kind is collapsed into `otherPenalty`. -/
inductive Penalty
  | illegalMotionInSet (remaining : ℕ)
  | otherPenalty (remaining : ℕ)
  deriving DecidableEq, Repr

/-- Player numbers, from `spl_network_messages/src/lib.rs`. -/
inductive PlayerNumber
  | one
  | two
  | three
  | four
  | five
  | six
  | seven
  deriving DecidableEq, Repr

/-- Modelled from the spec: `types::players::Players` (not in `src/`) is a
per-player table; the filter only reads it at one index, so a function
suffices. -/
def Players (α : Type) : Type := PlayerNumber → α

/-- A 2-dimensional point with rational coordinates (field frame). -/
structure Point2 where
  x : ℚ
  y : ℚ
  deriving DecidableEq, Repr

instance : Inhabited Point2 := ⟨⟨0, 0⟩⟩

/-- A 2-dimensional vector with rational coordinates. -/
structure Vector2 where
  x : ℚ
  y : ℚ
  deriving DecidableEq, Repr

/-- Modelled from the spec: a 2-d rigid transform (`linear_algebra::Isometry2`,
not in `src/`): a rotation given by its cosine/sine followed by a
translation. -/
structure Isometry2 where
  cosa : ℚ
  sina : ℚ
  tx : ℚ
  ty : ℚ
  deriving DecidableEq, Repr

/-- Application of an isometry to a point. -/
def Isometry2.apply (iso : Isometry2) (p : Point2) : Point2 :=
  ⟨iso.cosa * p.x - iso.sina * p.y + iso.tx,
   iso.sina * p.x + iso.cosa * p.y + iso.ty⟩

/-- The identity isometry. -/
def Isometry2.id : Isometry2 := ⟨1, 0, 0, 0⟩

/-- Modelled from the spec: `types::ball_position::BallPosition` (not in
`src/`); the filter only reads the position. -/
structure BallPosition where
  position : Point2
  deriving DecidableEq, Repr

/-- Modelled from the spec: the subset of
`types::field_dimensions::FieldDimensions` (not in `src/`) read by the
filter. -/
structure FieldDimensions where
  length : ℚ
  goal_inner_width : ℚ
  deriving DecidableEq, Repr

/-- Modelled from the spec: the subset of
`types::game_controller_state::GameControllerState` (not in `src/`) read by
the embedded functions. -/
structure GameControllerState where
  game_state : GameState
  game_phase : GamePhase
  sub_state : Option SubState
  penalties : Players (Option Penalty)
  opponent_penalties : Players (Option Penalty)

/-- Modelled from the spec: the delays and distances of
`types::parameters::GameStateFilterParameters` (not in `src/`) used by the
embedded functions. -/
structure GameStateFilterParameters where
  playing_message_delay : ℕ
  ready_message_delay : ℕ
  game_controller_controller_delay : ℕ
  tentative_finish_duration : ℕ
  kick_off_grace_period : ℕ
  whistle_acceptance_goal_distance : Vector2
  distance_to_consider_ball_moved_in_kick_off : ℚ

/-- Modelled from the spec: `types::filtered_game_state::FilteredGameState`
(not in `src/`), with the payload of `Playing` used by the filter. -/
inductive FilteredGameState
  | initial
  | ready
  | set
  | playing (ball_is_free : Bool) (kick_off : Bool)
  | finished
  | standby
  deriving DecidableEq, Repr

/-- Whether a filtered game state is the `Playing` variant. -/
def FilteredGameState.is_playing : FilteredGameState → Bool
  | .playing _ _ => true
  | _ => false

/-- The internal state of the game-state filter
(`State` in game_controller_state_filter.rs). -/
inductive State
  | initial
  | ready
  | set
  | whistleInSet (time_when_whistle_was_detected : ℕ)
  | playing
  | whistleInPlaying (time_when_whistle_was_detected : ℕ)
  | tentativeFinished (time_when_finished_clicked : ℕ)
  | finished
  | standby
  deriving DecidableEq, Repr

/-- `State::from_game_state`. -/
def State.from_game_state : GameState → State
  | .initial => .initial
  | .ready => .ready
  | .set => .set
  | .playing => .playing
  | .finished => .finished
  | .standby => .standby

/-- `ball_detected_far_from_any_goal` (game_controller_state_filter.rs,
lines 500-516). -/
def ball_detected_far_from_any_goal (ground_to_field : Isometry2)
    (ball : Option BallPosition) (field_dimensions : FieldDimensions)
    (whistle_acceptance_goal_distance : Vector2) : Bool :=
  match ball with
  | some ball =>
    let ball_on_field := ground_to_field.apply ball.position
    decide (|ball_on_field.x| <
        field_dimensions.length / 2 - whistle_acceptance_goal_distance.x)
      || decide (|ball_on_field.y| >
        field_dimensions.goal_inner_width / 2 + whistle_acceptance_goal_distance.y)
  | none => false

/-- `is_in_grace_period` (lines 518-527).  `duration_since(..).expect(..)` is
modelled by truncated subtraction. -/
def is_in_grace_period (cycle_start_time : ℕ) (start_time : ℕ)
    (grace_period : ℕ) : Bool :=
  decide (cycle_start_time - start_time < grace_period)

/-- `next_filtered_state` (lines 372-498).  The match arms are in source
order; Rust pattern guards become nested conditionals. -/
def next_filtered_state (current_state : State)
    (gc : GameControllerState) (is_whistle_detected : Bool)
    (cycle_start_time : ℕ) (config : GameStateFilterParameters)
    (ball_detected_far_from_any_goal : Bool)
    (visual_referee_proceed_to_ready : Bool)
    (did_receive_motion_in_set_penalty : Bool) : State :=
  match current_state, gc.game_state with
  | .finished, .initial => .initial
  | .finished, _ =>
    match gc.game_phase with
    | .penaltyShootout _ => .set
    | _ => .finished
  | .tentativeFinished time_when_finished_clicked, .finished =>
    if cycle_start_time - time_when_finished_clicked ≥
        config.tentative_finish_duration then
      .finished
    else
      .tentativeFinished time_when_finished_clicked
  | .tentativeFinished _, game_state => State.from_game_state game_state
  | _, .finished => .tentativeFinished cycle_start_time
  | .standby, .standby =>
    if visual_referee_proceed_to_ready then .ready else .standby
  | .ready, .standby => .ready
  | .initial, g => State.from_game_state g
  | .ready, g => State.from_game_state g
  | .standby, g => State.from_game_state g
  | .set, .set =>
    if is_whistle_detected then
      .whistleInSet cycle_start_time
    else
      .set
  | .set, g => State.from_game_state g
  | .whistleInSet time_when_whistle_was_detected, .set =>
    if did_receive_motion_in_set_penalty then
      .set
    else if cycle_start_time - time_when_whistle_was_detected <
        config.playing_message_delay + config.game_controller_controller_delay then
      .whistleInSet time_when_whistle_was_detected
    else
      .playing
  | .whistleInSet _, g => State.from_game_state g
  | .playing, .playing =>
    if is_whistle_detected && !ball_detected_far_from_any_goal then
      .whistleInPlaying cycle_start_time
    else
      .playing
  | .playing, g => State.from_game_state g
  | .whistleInPlaying time_when_whistle_was_detected, .playing =>
    if cycle_start_time - time_when_whistle_was_detected <
        config.ready_message_delay + config.game_controller_controller_delay then
      .whistleInPlaying time_when_whistle_was_detected
    else
      .playing
  | .whistleInPlaying _, g => State.from_game_state g

/-- `State::construct_filtered_game_state_for_team` (lines 560-615). -/
def State.construct_filtered_game_state_for_team (s : State)
    (gc : GameControllerState) (team : Team) (cycle_start_time : ℕ)
    (ball_detected_far_from_kick_off_point : Bool)
    (config : GameStateFilterParameters)
    (visual_referee_proceed_to_ready : Bool)
    (filtered_kicking_team : Option Team) : FilteredGameState :=
  let is_in_sub_state := gc.sub_state.isSome
  let opponent_is_kicking_team := filtered_kicking_team ≠ some team
  match s with
  | .initial => .initial
  | .standby =>
    if visual_referee_proceed_to_ready then .ready else .standby
  | .ready => .ready
  | .set => .set
  | .whistleInSet time_when_whistle_was_detected =>
    let kick_off_grace_period := is_in_grace_period cycle_start_time
      time_when_whistle_was_detected
      (config.kick_off_grace_period + config.game_controller_controller_delay)
    let opponent_kick_off := opponent_is_kicking_team && kick_off_grace_period
      && !ball_detected_far_from_kick_off_point
    let opponent_sub_state := opponent_is_kicking_team && is_in_sub_state
    .playing (!opponent_kick_off && !opponent_sub_state) (!is_in_sub_state)
  | .playing =>
    .playing (!(is_in_sub_state && opponent_is_kicking_team)) false
  | .whistleInPlaying _ => .ready
  | .finished =>
    match gc.game_phase with
    | .penaltyShootout _ => .set
    | _ => .finished
  | .tentativeFinished _ => .set

/-- Modelled from the spec: `linear_algebra::distance` (not in `src/`) is the
Euclidean distance; the filter only compares it with a threshold, which is
encoded by the equivalent squared comparison (for real numbers,
`sqrt s > d` holds iff `d < 0` or `d ^ 2 < s`). -/
def distance_gt (p q : Point2) (threshold : ℚ) : Bool :=
  decide (threshold < 0)
    || decide (threshold ^ 2 < (q.x - p.x) ^ 2 + (q.y - p.y) ^ 2)

/-- The mutable fields of `GameControllerStateFilter` touched by
`filter_game_states`. -/
structure FilterCore where
  state : State
  opponent_state : State
  whistle_in_set_ball_position : Option Point2
  deriving DecidableEq, Repr

/-- The initial filter state as built by `GameControllerStateFilter::new`
(lines 64-75). -/
def FilterCore.new : FilterCore :=
  { state := .initial
    opponent_state := .initial
    whistle_in_set_ball_position := none }

/-- The pair of filtered game states returned by `filter_game_states`. -/
structure FilteredGameStates where
  own : FilteredGameState
  opponent : FilteredGameState
  deriving DecidableEq, Repr

/-- `GameControllerStateFilter::filter_game_states` (lines 144-239): the full
per-cycle state update plus the construction of both outputs.

Note on lines 188-194 of the source: when the state is `WhistleInSet`, the
ball's field position is computed by `ball_position.map(|ball|
ground_to_field * ball.position)` but the resulting value is discarded;
`whistle_in_set_ball_position` is never assigned there, so no state change is
modelled. -/
def filter_game_states (core : FilterCore)
    (ground_to_field : Option Isometry2) (ball_position : Option BallPosition)
    (field_dimensions : FieldDimensions) (config : GameStateFilterParameters)
    (gc : GameControllerState) (filtered_whistle_is_detected : Bool)
    (cycle_start_time : ℕ) (visual_referee_proceed_to_ready : Bool)
    (player_number : PlayerNumber)
    (did_receive_motion_in_set_penalty : Bool)
    (filtered_kicking_team : Option Team) : FilterCore × FilteredGameStates :=
  let ball_far_from_any_goal :=
    (ground_to_field.map fun ground_to_field =>
      ball_detected_far_from_any_goal ground_to_field ball_position
        field_dimensions config.whistle_acceptance_goal_distance).getD false
  let state := next_filtered_state core.state gc filtered_whistle_is_detected
    cycle_start_time config ball_far_from_any_goal
    visual_referee_proceed_to_ready did_receive_motion_in_set_penalty
  let opponent_state := next_filtered_state core.opponent_state gc
    filtered_whistle_is_detected cycle_start_time config ball_far_from_any_goal
    visual_referee_proceed_to_ready did_receive_motion_in_set_penalty
  let motion_in_set :=
    match gc.penalties player_number with
    | some (.illegalMotionInSet _) => true
    | _ => false
  let whistle_in_set_ball_position :=
    if state = State.playing || motion_in_set then
      none
    else
      core.whistle_in_set_ball_position
  let ball_detected_far_from_kick_off_point :=
    (ground_to_field.bind fun ground_to_field =>
      ball_position.map fun ball =>
        let absolute_ball_position := ground_to_field.apply ball.position
        let reference_ball_position :=
          whistle_in_set_ball_position.getD default
        distance_gt reference_ball_position absolute_ball_position
          config.distance_to_consider_ball_moved_in_kick_off).getD false
  let filtered_game_state := state.construct_filtered_game_state_for_team gc
    .hulks cycle_start_time ball_detected_far_from_kick_off_point config
    visual_referee_proceed_to_ready filtered_kicking_team
  let filtered_opponent_game_state :=
    opponent_state.construct_filtered_game_state_for_team gc .opponent
      cycle_start_time ball_detected_far_from_kick_off_point config
      visual_referee_proceed_to_ready filtered_kicking_team
  (⟨state, opponent_state, whistle_in_set_ball_position⟩,
    ⟨filtered_game_state, filtered_opponent_game_state⟩)

/-- Reachability of a filter core state: the initial state of
`GameControllerStateFilter::new`, closed under one `filter_game_states`
cycle with arbitrary inputs. -/
inductive Reachable : FilterCore → Prop
  | new : Reachable FilterCore.new
  | step {core : FilterCore} (ground_to_field : Option Isometry2)
      (ball_position : Option BallPosition)
      (field_dimensions : FieldDimensions)
      (config : GameStateFilterParameters) (gc : GameControllerState)
      (filtered_whistle_is_detected : Bool) (cycle_start_time : ℕ)
      (visual_referee_proceed_to_ready : Bool) (player_number : PlayerNumber)
      (did_receive_motion_in_set_penalty : Bool)
      (filtered_kicking_team : Option Team) :
      Reachable core →
      Reachable (filter_game_states core ground_to_field ball_position
        field_dimensions config gc filtered_whistle_is_detected
        cycle_start_time visual_referee_proceed_to_ready player_number
        did_receive_motion_in_set_penalty filtered_kicking_team).1

end GameFilter

/-! ## Motion selector (crates/control/src/motion/motion_selector.rs and
crates/types/src/motion_selection.rs) -/

namespace MotionSel

/-- Modelled from the spec: `types::fall_state::StandUpSpeed` is not in
`src/`; only its presence as a payload of the two stand-up motion variants
matters, so it is modelled as a two-valued enumeration. -/
inductive StandUpSpeed
  | slow
  | normal
  deriving DecidableEq, Repr, Fintype

/-- `MotionType` from types/motion_selection.rs (lines 27-49). -/
inductive MotionType
  | animation
  | animationStiff
  | armsUpSquat
  | armsUpStand
  | dispatching
  | fallProtection
  | initial
  | jumpLeft
  | jumpRight
  | centerJump
  | penalized
  | sitDown
  | stand
  | standUpBack
  | standUpFront (speed : StandUpSpeed)
  | standUpSitting (speed : StandUpSpeed)
  | unstiff
  | walk
  | wideStance
  | keeperJumpLeft
  | keeperJumpRight
  deriving DecidableEq, Repr, Fintype

/-- `MotionType::is_standup_motion` (motion_selection.rs, lines 58-60).
Note that it matches only `StandUpBack` and `StandUpFront`. -/
def MotionType.is_standup_motion : MotionType → Bool
  | .standUpBack => true
  | .standUpFront _ => true
  | _ => false

/-- `MotionType::is_stable` (motion_selection.rs, lines 66-71). -/
def MotionType.is_stable : MotionType → Bool
  | .stand => true
  | .walk => true
  | .initial => true
  | .penalized => true
  | _ => false

/-- `MotionSafeExits` (motion_selection.rs, lines 75-97): one flag per motion
type, with the two speed-parameterised stand-up variants sharing one flag
each. -/
structure MotionSafeExits where
  animation : Bool
  animation_stiff : Bool
  arms_up_squat : Bool
  arms_up_stand : Bool
  dispatching : Bool
  fall_protection : Bool
  initial : Bool
  jump_left : Bool
  jump_right : Bool
  center_jump : Bool
  penalized : Bool
  sit_down : Bool
  stand_up_back : Bool
  stand_up_front : Bool
  stand_up_sitting : Bool
  stand : Bool
  unstiff : Bool
  walk : Bool
  wide_stance : Bool
  keeper_jump_left : Bool
  keeper_jump_right : Bool
  deriving DecidableEq, Repr

/-- `MotionSafeExits::fill` (motion_selection.rs, lines 100-124). -/
def MotionSafeExits.fill (value : Bool) : MotionSafeExits :=
  ⟨value, value, value, value, value, value, value, value, value, value,
   value, value, value, value, value, value, value, value, value, value,
   value⟩

/-- The `Index<MotionType>` implementation for `MotionSafeExits`
(motion_selection.rs, lines 155-183). -/
def MotionSafeExits.index (e : MotionSafeExits) : MotionType → Bool
  | .animation => e.animation
  | .animationStiff => e.animation_stiff
  | .armsUpSquat => e.arms_up_squat
  | .armsUpStand => e.arms_up_stand
  | .dispatching => e.dispatching
  | .initial => e.initial
  | .jumpLeft => e.jump_left
  | .jumpRight => e.jump_right
  | .centerJump => e.center_jump
  | .fallProtection => e.fall_protection
  | .penalized => e.penalized
  | .sitDown => e.sit_down
  | .stand => e.stand
  | .standUpBack => e.stand_up_back
  | .standUpFront _ => e.stand_up_front
  | .standUpSitting _ => e.stand_up_sitting
  | .unstiff => e.unstiff
  | .walk => e.walk
  | .wideStance => e.wide_stance
  | .keeperJumpLeft => e.keeper_jump_left
  | .keeperJumpRight => e.keeper_jump_right

/-- `transition_motion` (motion_selector.rs, lines 115-169).  The match arms
are in source order; the guarded arm `(from, true, to, _) if from != to`
and the final `_ => from` become a conditional.  In the source file the
stand-up patterns are written without the `StandUpSpeed` payload that
types/motion_selection.rs declares; they are read as matching any speed and
returning the `from` value unchanged. -/
def transition_motion (from_ to_ : MotionType) (motion_safe_to_exit : Bool)
    (has_ground_contact : Bool) : MotionType :=
  match from_, motion_safe_to_exit, to_, has_ground_contact with
  | .sitDown, true, .unstiff, _ => .unstiff
  | _, _, .unstiff, false => .unstiff
  | .dispatching, true, .unstiff, true => .sitDown
  | .standUpFront s, _, .fallProtection, _ => .standUpFront s
  | .standUpBack, _, .fallProtection, _ => .standUpBack
  | .wideStance, _, .fallProtection, _ => .wideStance
  | .jumpLeft, _, .fallProtection, _ => .jumpLeft
  | .jumpRight, _, .fallProtection, _ => .jumpRight
  | .centerJump, _, .fallProtection, _ => .centerJump
  | .standUpSitting s, _, .fallProtection, _ => .standUpSitting s
  | .armsUpStand, _, .fallProtection, _ => .armsUpStand
  | .standUpFront _, true, .standUpFront _, _ => .dispatching
  | .standUpBack, true, .standUpBack, _ => .dispatching
  | .standUpSitting _, true, .standUpSitting _, _ => .dispatching
  | _, _, .fallProtection, _ => .fallProtection
  | .walk, _, .wideStance, _ => .wideStance
  | .walk, _, .keeperJumpRight, _ => .keeperJumpRight
  | .walk, _, .keeperJumpLeft, _ => .keeperJumpLeft
  | .wideStance, true, .wideStance, _ => .wideStance
  | .keeperJumpRight, true, .keeperJumpRight, _ => .keeperJumpRight
  | .keeperJumpLeft, true, .keeperJumpLeft, _ => .keeperJumpLeft
  | _, true, .wideStance, _ => .wideStance
  | _, true, .keeperJumpRight, _ => .keeperJumpRight
  | _, true, .keeperJumpLeft, _ => .keeperJumpLeft
  | _, _, .centerJump, _ => .centerJump
  | .armsUpSquat, _, .jumpRight, _ => .jumpRight
  | .armsUpSquat, _, .jumpLeft, _ => .jumpLeft
  | .armsUpStand, _, _, false => .armsUpStand
  | .dispatching, true, t, _ => t
  | .stand, _, .walk, _ => .walk
  | .walk, _, .stand, _ => .stand
  | .unstiff, true, .animation, _ => .animation
  | .animationStiff, true, .animation, _ => .animation
  | .animation, true, .animationStiff, _ => .animationStiff
  | f, true, t, _ => if f = t then f else .dispatching
  | f, _, _, _ => f

/-- `stand_up_counting` (motion_selector.rs, lines 171-185). -/
def stand_up_counting (last_motion current_motion : MotionType)
    (stand_up_count : ℕ) : ℕ :=
  if !last_motion.is_standup_motion && current_motion.is_standup_motion then
    stand_up_count + 1
  else if current_motion.is_stable then
    0
  else
    stand_up_count

/-- The mutable state of `MotionSelector` (motion_selector.rs, lines 11-15). -/
structure MotionSelector where
  last_motion : MotionType
  stand_up_count : ℕ
  deriving DecidableEq, Repr

/-- `MotionSelector::new` (lines 36-41). -/
def MotionSelector.new : MotionSelector :=
  { last_motion := .unstiff, stand_up_count := 0 }

/-- `MotionSelection`, the main output (motion_selection.rs, lines 10-13). -/
structure MotionSelection where
  current_motion : MotionType
  dispatching_motion : Option MotionType
  deriving DecidableEq, Repr

/-- `MotionSelector::cycle` (motion_selector.rs, lines 43-79).
`motion_type_from_command` maps the behavior's `MotionCommand` to a
`MotionType`; `types::motion_command` is not in `src/`, so the cycle is
embedded as a function of that mapping's result `requested_motion`. -/
def MotionSelector.cycle (s : MotionSelector) (requested_motion : MotionType)
    (motion_safe_exits : MotionSafeExits) (has_ground_contact : Bool) :
    MotionSelector × MotionSelection :=
  let motion_safe_to_exit := motion_safe_exits.index s.last_motion
  let current_motion := transition_motion s.last_motion requested_motion
    motion_safe_to_exit has_ground_contact
  let stand_up_count :=
    stand_up_counting s.last_motion current_motion s.stand_up_count
  let dispatching_motion :=
    if current_motion = MotionType.dispatching then
      if requested_motion = MotionType.unstiff then
        some MotionType.sitDown
      else
        some requested_motion
    else
      none
  (⟨current_motion, stand_up_count⟩,
    ⟨current_motion, dispatching_motion⟩)

/-- The direct transitions between distinct stable motions implemented by
`transition_motion`: the fast path `Stand ↔ Walk` (lines 160-161 of
motion_selector.rs).  The specification's list of fast paths is explicitly
non-exhaustive; this is its restriction to pairs of stable motions. -/
def is_fast_path_pair (from_ to_ : MotionType) : Bool :=
  (from_ = MotionType.stand && to_ = MotionType.walk)
    || (from_ = MotionType.walk && to_ = MotionType.stand)

end MotionSel

/-! ## Kick overlay helpers (crates/walking_engine/src/kick_state.rs) -/

namespace Kick

/-- `kick_steps::JointOverride` (the defining module is not in `src/`;
modelled from the spec: a keyframe with a timepoint and a joint-angle
value).  Durations are rational seconds. -/
structure JointOverride where
  timepoint : ℚ
  value : ℚ
  deriving DecidableEq, Repr

/-- The subset of `kick_steps::KickStep` (not in `src/`) read by
`compute_kick_overrides`: the optional keyframe lists for the two
overridden joints. -/
structure KickStep where
  hip_pitch_overrides : Option (List JointOverride)
  ankle_pitch_overrides : Option (List JointOverride)
  deriving DecidableEq, Repr

/-- `types::joints::leg::LegJoints` (not in `src/`; modelled from the spec:
the six leg joint angles, in the order of the source constructor). -/
structure LegJoints where
  hip_yaw_pitch : ℚ
  hip_pitch : ℚ
  hip_roll : ℚ
  knee_pitch : ℚ
  ankle_pitch : ℚ
  ankle_roll : ℚ
  deriving DecidableEq, Repr

/-- Rust's `f32::clamp` for rationals (the call sites satisfy `lo ≤ hi`). -/
def clampQ (x lo hi : ℚ) : ℚ := min (max x lo) hi

/-- Modelled from the spec: the linear interpolation
`f32::lerp(t, a, b) = a + (b - a) * t` of the `splines::Interpolate`
instance used by `compute_override` (the crate is not in `src/`). -/
def lerp (t a b : ℚ) : ℚ := a + (b - a) * t

/-- The `tuple_windows().find(..)` of `compute_override`: the first
consecutive keyframe pair whose half-open timepoint range contains `t`. -/
def find_window (t : ℚ) : List JointOverride →
    Option (JointOverride × JointOverride)
  | a :: b :: rest =>
    if a.timepoint ≤ t ∧ t < b.timepoint then
      some (a, b)
    else
      find_window t (b :: rest)
  | _ => none

/-- `compute_override` (kick_state.rs, lines 145-158). -/
def compute_override (overrides : List JointOverride) (t : ℚ) : ℚ :=
  match find_window t overrides with
  | none => 0
  | some (start, «end») =>
    let phase_duration := «end».timepoint - start.timepoint
    let t_in_phase := t - start.timepoint
    let linear_time := clampQ (t_in_phase / phase_duration) 0 1
    lerp linear_time start.value «end».value

/-- `compute_kick_overrides` (kick_state.rs, lines 124-143). -/
def compute_kick_overrides (kick_step : KickStep) (t : ℚ) (strength : ℚ) :
    LegJoints :=
  let hip_pitch :=
    match kick_step.hip_pitch_overrides with
    | some overrides => strength * compute_override overrides t
    | none => 0
  let ankle_pitch :=
    match kick_step.ankle_pitch_overrides with
    | some overrides => strength * compute_override overrides t
    | none => 0
  { hip_yaw_pitch := 0
    hip_pitch := hip_pitch
    hip_roll := 0
    knee_pitch := 0
    ankle_pitch := ankle_pitch
    ankle_roll := 0 }

end Kick

/-! ## Sensor data receiver (crates/control/src/sensor_data_receiver.rs) -/

namespace SensorReceiver

/-- The mutable state of `SensorDataReceiver` relevant to cycle timing
(sensor_data_receiver.rs, lines 29-33); the IMU calibration state is
independent of it and not modelled.  `UNIX_EPOCH` is time 0. -/
structure SensorDataReceiver where
  last_cycle_start : ℕ
  deriving DecidableEq, Repr

/-- `SensorDataReceiver::new` (lines 50-55). -/
def SensorDataReceiver.new : SensorDataReceiver :=
  { last_cycle_start := 0 }

/-- `types::cycle_time::CycleTime` (not in `src/`; modelled from the spec:
the cycle's start time and the duration of the last cycle). -/
structure CycleTime where
  start_time : ℕ
  last_cycle_duration : ℕ
  deriving DecidableEq, Repr

/-- `SensorDataReceiver::cycle` (lines 57-78), with `now` the value returned
by `get_now`.  The source computes
`now.duration_since(self.last_cycle_start)` and returns; it contains no
assignment to `self.last_cycle_start`, so the state is returned unchanged. -/
def SensorDataReceiver.cycle (s : SensorDataReceiver) (now : ℕ) :
    SensorDataReceiver × CycleTime :=
  (s, { start_time := now, last_cycle_duration := now - s.last_cycle_start })

end SensorReceiver

/-! ## Step planner (crates/control/src/motion/step_planner.rs)

Embedded over the real numbers; `powf` is `Real.rpow`, and real-valued
comparisons make the definitions `noncomputable` (they use classical
decidability). -/

namespace StepPlan

/-- Rust's `f32::is_sign_positive`, modelled as `0 ≤ x` (negative zero is
not observable on the reals; both call sites only use the flag to choose a
divisor, and the two choices agree at zero). -/
noncomputable def is_sign_positive (x : ℝ) : Bool := decide (0 ≤ x)

/-- Rust's `f32::clamp` (both call sites satisfy `lo ≤ hi`). -/
noncomputable def clampR (x lo hi : ℝ) : ℝ := min (max x lo) hi

/-- `f32::EPSILON`. -/
noncomputable def f32_epsilon : ℝ := 2 ^ (-23 : ℤ)

/-- `types::step::Step` (not in `src/`; modelled from the spec: the triple
forward, left, turn). -/
structure Step where
  forward : ℝ
  left : ℝ
  turn : ℝ

/-- `Step::default`: the zero step. -/
noncomputable def Step.default : Step := ⟨0, 0, 0⟩

/-- Modelled from the spec: componentwise addition of steps (the `Add`
implementation of `types::step::Step`, not in `src/`). -/
noncomputable def Step.add (a b : Step) : Step :=
  ⟨a.forward + b.forward, a.left + b.left, a.turn + b.turn⟩

/-- A planar point or vector. -/
structure Vec2 where
  x : ℝ
  y : ℝ

/-- Vector addition. -/
noncomputable def Vec2.add (a b : Vec2) : Vec2 := ⟨a.x + b.x, a.y + b.y⟩

/-- Vector subtraction. -/
noncomputable def Vec2.sub (a b : Vec2) : Vec2 := ⟨a.x - b.x, a.y - b.y⟩

/-- `norm_squared`. -/
noncomputable def Vec2.norm_squared (v : Vec2) : ℝ := v.x * v.x + v.y * v.y

/-- Euclidean norm. -/
noncomputable def Vec2.norm (v : Vec2) : ℝ := Real.sqrt v.norm_squared

/-- `normalize`: division by the Euclidean norm. -/
noncomputable def Vec2.normalize (v : Vec2) : Vec2 :=
  ⟨v.x / v.norm, v.y / v.norm⟩

/-- Orientations (`linear_algebra::Orientation2`, not in `src/`; modelled
from the spec as a unit complex number, as in the underlying `nalgebra`
type).  `from_cos_sin_unchecked` is the anonymous constructor and `angle`
is the complex argument. -/
abbrev Orientation2 := ℂ

/-- `Orientation2::angle`: the principal argument. -/
noncomputable def Orientation2.angle (o : Orientation2) : ℝ := o.arg

/-- `Orientation2::from_vector`: the direction of a vector as an
orientation (the argument is insensitive to positive scaling, so the
normalisation of the source is the identity here). -/
noncomputable def Orientation2.from_vector (v : Vec2) : Orientation2 :=
  ⟨v.x, v.y⟩

/-- A 2-d rigid transform over the reals (`linear_algebra::Isometry2`, not
in `src/`): a rotation (unit complex) followed by a translation. -/
structure IsometryR where
  rotation : ℂ
  translation : Vec2

/-- The identity isometry. -/
noncomputable def IsometryR.id : IsometryR := ⟨1, ⟨0, 0⟩⟩

/-- Application of an isometry to a point. -/
noncomputable def IsometryR.apply (iso : IsometryR) (p : Vec2) : Vec2 :=
  ⟨iso.rotation.re * p.x - iso.rotation.im * p.y + iso.translation.x,
   iso.rotation.im * p.x + iso.rotation.re * p.y + iso.translation.y⟩

/-- `linear_algebra::Pose2` (not in `src/`): a position and an
orientation. -/
structure Pose2 where
  position : Vec2
  orientation : Orientation2

/-- Isometry applied to a pose: transform the position, compose the
rotations. -/
noncomputable def IsometryR.apply_pose (iso : IsometryR) (p : Pose2) : Pose2 :=
  ⟨iso.apply p.position, iso.rotation * p.orientation⟩

/-- `geometry::direction::Direction` (not in `src/`; the three variants
appear in geometry/line_segment.rs). -/
inductive Direction
  | clockwise
  | counterclockwise
  | collinear
  deriving DecidableEq, Repr

/-- Modelled from the spec: `rotate_90_degrees`
(`geometry::direction::Rotate90Degrees`, not in `src/`): rotation of a
vector by ±90°; the `collinear` case does not occur at the call sites. -/
noncomputable def rotate_90_degrees (v : Vec2) : Direction → Vec2
  | .counterclockwise => ⟨-v.y, v.x⟩
  | .clockwise => ⟨v.y, -v.x⟩
  | .collinear => v

/-- `geometry::line_segment::LineSegment` (geometry/line_segment.rs,
line 33): its two endpoints. -/
structure LineSegment where
  p0 : Vec2
  p1 : Vec2

/-- `LineSegment::length` (geometry/line_segment.rs, lines 44-46):
the distance between the endpoints. -/
noncomputable def LineSegment.length (ls : LineSegment) : ℝ :=
  (ls.p1.sub ls.p0).norm

/-- `geometry::circle::Circle` (not in `src/`; modelled from its use in
geometry/line_segment.rs tests: a center and a radius). -/
structure Circle where
  center : Vec2
  radius : ℝ

/-- `geometry::arc::Arc` (not in `src/`; modelled from its use in
geometry/line_segment.rs tests and in the step planner: a circle, start and
end orientations, and a winding direction). -/
structure Arc where
  circle : Circle
  start : Orientation2
  «end» : Orientation2
  direction : Direction

/-- Modelled from the spec: `Arc::start_point`, the point of the circle at
the start orientation. -/
noncomputable def Arc.start_point (a : Arc) : Vec2 :=
  ⟨a.circle.center.x + a.circle.radius * a.start.re / Complex.abs a.start,
   a.circle.center.y + a.circle.radius * a.start.im / Complex.abs a.start⟩

/-- Modelled from the spec: the angle swept from one orientation to another
along a winding direction, normalised to `[0, 2π)`
(`geometry::direction::AngleTo`, not in `src/`). -/
noncomputable def angle_to (s e : Orientation2) (d : Direction) : ℝ :=
  let raw :=
    match d with
    | .counterclockwise => e.arg - s.arg
    | .clockwise => s.arg - e.arg
    | .collinear => 0
  raw - 2 * Real.pi * ⌊raw / (2 * Real.pi)⌋

/-- `types::planned_path::PathSegment` (not in `src/`; modelled from the
spec: a path is a sequence of line segments and arcs). -/
inductive PathSegment
  | lineSegment (ls : LineSegment)
  | arc (a : Arc)

/-- Modelled from the spec: `PathSegment::length` — arclength of a segment
(line length, or radius times swept angle for an arc). -/
noncomputable def PathSegment.length : PathSegment → ℝ
  | .lineSegment ls => ls.length
  | .arc a => a.circle.radius * angle_to a.start a.«end» a.direction

/-- `types::motion_command::OrientationMode` (not in `src/`; modelled from
its use in the step planner). -/
inductive OrientationMode
  | alignWithPath
  | override (orientation : Orientation2)

/-- `types::motion_command::WalkSpeed` (not in `src/`; modelled from its
use in the step planner). -/
inductive WalkSpeed
  | slow
  | normal
  | fast
  deriving DecidableEq, Repr

/-- The subset of `types::motion_command::MotionCommand` (not in `src/`)
the step planner distinguishes: a walk command with path, orientation mode
and speed; every other command takes the early-return branch and is
collapsed into `other`. -/
inductive MotionCommand
  | walk (path : List PathSegment) (orientation_mode : OrientationMode)
      (speed : WalkSpeed)
  | other

/-- `types::support_foot::Side` (not in `src/`; modelled from its use in
the step planner). -/
inductive Side
  | left
  | right
  deriving DecidableEq, Repr

/-- The subset of `walking_engine::mode::Mode` (the enum itself is not in
`src/`) read by the step planner: whether the engine is in `Walking` and,
if so, the planned support side. -/
inductive Mode
  | walking (support_side : Side)
  | notWalking

/-- The leg temperature sensors of `types::sensor_data::SensorData` (not in
`src/`; modelled from the spec as lists of joint temperatures). -/
structure TemperatureSensors where
  left_leg : List ℝ
  right_leg : List ℝ

/-- Modelled from the spec:
`filtering::hysteresis::greater_than_with_absolute_hysteresis` (the crate
is not in `src/`); per the spec the planner "enters hot at 75 °C, exits at
70 °C", i.e. with range `low..=high` the flag becomes true above `high`
and stays true while above `low`. -/
noncomputable def greater_than_with_absolute_hysteresis
    (last : Bool) (value : ℝ) (low high : ℝ) : Bool :=
  if last then decide (low < value) else decide (high < value)

/-- The mutable state of `StepPlanner` (step_planner.rs, lines 19-23). -/
structure StepPlanner where
  last_planned_step : Step
  leg_joints_hot : Bool

/-- `StepPlanner::new` (lines 59-65). -/
noncomputable def StepPlanner.new : StepPlanner :=
  { last_planned_step := Step.default, leg_joints_hot := false }

/-- The parameters of the step planner's `CycleContext`
(step_planner.rs, lines 29-51). -/
structure Parameters where
  injected_step : Option Step
  max_step_size : Step
  step_size_delta_slow : Step
  step_size_delta_fast : Step
  max_step_size_backwards : ℝ
  max_inside_turn : ℝ
  rotation_exponent : ℝ
  translation_exponent : ℝ
  initial_side_bonus : ℝ
  request_scale : Step

/-- `calculate_walk_volume` (step_planner.rs, lines 287-313).  `powf` is
`Real.rpow`; the `assert!(angle.abs() <= 1.0)` is a panic in the source and
holds at the call sites under the theorems' hypotheses. -/
noncomputable def calculate_walk_volume (request : Step)
    (max_step_size : Step) (max_step_size_backwards : ℝ)
    (translation_exponent rotation_exponent : ℝ)
    (max_turn_left max_turn_right : ℝ) : ℝ :=
  let max_forward := if is_sign_positive request.forward then
    max_step_size.forward else max_step_size_backwards
  let x := request.forward / max_forward
  let y := request.left / max_step_size.left
  let angle := if is_sign_positive request.turn then
    request.turn / max_turn_right else request.turn / max_turn_left
  (|x| ^ translation_exponent + |y| ^ translation_exponent)
      ^ (rotation_exponent / translation_exponent)
    + |angle| ^ rotation_exponent

/-- `calculate_max_step_size_in_walk_volume` (step_planner.rs,
lines 315-343). -/
noncomputable def calculate_max_step_size_in_walk_volume (request : Step)
    (max_step_size : Step) (max_step_size_backwards : ℝ)
    (translation_exponent rotation_exponent : ℝ)
    (max_turn_left max_turn_right : ℝ) : ℝ × ℝ :=
  let max_forward := if is_sign_positive request.forward then
    max_step_size.forward else max_step_size_backwards
  let x := request.forward / max_forward
  let y := request.left / max_step_size.left
  let angle := if is_sign_positive request.turn then
    request.turn / max_turn_right else request.turn / max_turn_left
  let scale := ((1 - |angle| ^ rotation_exponent)
      ^ (translation_exponent / rotation_exponent)
    / (|x| ^ translation_exponent + |y| ^ translation_exponent))
      ^ (1 / translation_exponent)
  (request.forward * scale, request.left * scale)

/-- `clamp_step_to_walk_volume` (step_planner.rs, lines 241-285). -/
noncomputable def clamp_step_to_walk_volume (request : Step)
    (max_step_size : Step) (max_step_size_backwards : ℝ)
    (translation_exponent rotation_exponent : ℝ)
    (max_turn_left max_turn_right : ℝ) : Step :=
  let clamped_turn := clampR request.turn max_turn_left max_turn_right
  let request' : Step :=
    ⟨request.forward, request.left, clamped_turn⟩
  if calculate_walk_volume request' max_step_size max_step_size_backwards
      translation_exponent rotation_exponent max_turn_left max_turn_right
      ≤ 1 then
    request'
  else
    let forward_left := calculate_max_step_size_in_walk_volume request'
      max_step_size max_step_size_backwards translation_exponent
      rotation_exponent max_turn_left max_turn_right
    ⟨forward_left.1, forward_left.2, request'.turn⟩

/-- `StepPlanner::calculate_max_step_size` (step_planner.rs,
lines 205-238).  Returns the step bound together with the updated
`leg_joints_hot` flag (the source mutates `self`).  The
`max_by(f32::total_cmp).expect(..)` over the chained temperature lists is a
fold; the source panics on empty input, here the fold starts from the first
element when present and from `0` otherwise (the theorems never touch that
case). -/
noncomputable def calculate_max_step_size (leg_joints_hot : Bool)
    (temperature_sensors : TemperatureSensors) (p : Parameters)
    (speed : WalkSpeed) (initial_side_bonus : Step) : Step × Bool :=
  let highest_temperature :=
    match temperature_sensors.left_leg ++ temperature_sensors.right_leg with
    | [] => 0
    | t :: rest => rest.foldl max t
  let leg_joints_hot' := greater_than_with_absolute_hysteresis leg_joints_hot
    highest_temperature 70 75
  let speed' := if speed = WalkSpeed.fast && leg_joints_hot' then
    WalkSpeed.normal else speed
  let result :=
    match speed' with
    | .slow => p.max_step_size.add p.step_size_delta_slow
    | .normal => p.max_step_size.add initial_side_bonus
    | .fast =>
      (p.max_step_size.add p.step_size_delta_fast).add initial_side_bonus
  (result, leg_joints_hot')

/-- The `scan(0.0, ..).last()` over the path segments in
`StepPlanner::cycle` (lines 122-135): the last segment whose preceding
accumulated arclength is below the forward budget, `none` when the scan
yields nothing (the `empty path` error). -/
noncomputable def select_segment (max_forward : ℝ) :
    ℝ → List PathSegment → Option PathSegment
  | _, [] => none
  | dist, s :: rest =>
    if dist < max_forward then
      some ((select_segment max_forward (dist + s.length) rest).getD s)
    else
      none

/-- `StepPlanner::cycle` (step_planner.rs, lines 67-203).  `none` models
the `Err` return for an empty path; otherwise the updated planner state
and the planned step are returned. -/
noncomputable def StepPlanner.cycle (s : StepPlanner)
    (motion_command : MotionCommand) (p : Parameters)
    (ground_to_upcoming_support : IsometryR) (walking_engine_mode : Mode)
    (temperature_sensors : TemperatureSensors) :
    Option (StepPlanner × Step) :=
  let support_side :=
    match walking_engine_mode with
    | .walking side => some side
    | .notWalking => none
  let turn_bounds :=
    match support_side with
    | some side =>
      if side = Side.left then
        (-p.max_inside_turn, p.max_step_size.turn)
      else
        (-p.max_step_size.turn, p.max_inside_turn)
    | none => (-p.max_step_size.turn, p.max_step_size.turn)
  let max_turn_left := turn_bounds.1
  let max_turn_right := turn_bounds.2
  match motion_command with
  | .other => some (s, Step.default)
  | .walk path orientation_mode speed =>
    let initial_side_bonus : Step :=
      if |s.last_planned_step.forward| + |s.last_planned_step.left|
          + |s.last_planned_step.turn| ≤ f32_epsilon then
        ⟨0, p.initial_side_bonus, 0⟩
      else
        Step.default
    let max_step_size_hot := calculate_max_step_size s.leg_joints_hot
      temperature_sensors p speed initial_side_bonus
    let max_step_size := max_step_size_hot.1
    let leg_joints_hot := max_step_size_hot.2
    match select_segment max_step_size.forward 0 path with
    | none => none
    | some segment =>
      let target_pose :=
        match segment with
        | .lineSegment line_segment =>
          let direction := line_segment.p1
          let rotation :=
            if direction.norm_squared < f32_epsilon then
              (1 : Orientation2)
            else
              let normalized_direction := direction.normalize
              (⟨normalized_direction.x, normalized_direction.y⟩ :
                Orientation2)
          Pose2.mk line_segment.p1 rotation
        | .arc arc =>
          let start_point := arc.start_point
          let direction := rotate_90_degrees
            (start_point.sub arc.circle.center) arc.direction
          Pose2.mk (start_point.add direction)
            (Orientation2.from_vector direction)
      let step_target := ground_to_upcoming_support.apply_pose target_pose
      let step : Step :=
        ⟨step_target.position.x, step_target.position.y,
          match orientation_mode with
          | .alignWithPath => step_target.orientation.angle
          | .override orientation =>
            Orientation2.angle
              (ground_to_upcoming_support.rotation * orientation)⟩
      let step : Step :=
        ⟨step.forward * p.request_scale.forward,
         step.left * p.request_scale.left,
         step.turn * p.request_scale.turn⟩
      let step :=
        match p.injected_step with
        | some injected_step => injected_step
        | none => step
      let step := clamp_step_to_walk_volume step max_step_size
        p.max_step_size_backwards p.translation_exponent p.rotation_exponent
        max_turn_left max_turn_right
      some ({ last_planned_step := step, leg_joints_hot := leg_joints_hot },
        step)

end StepPlan

/-! ## Theorems -/

namespace GameFilter

/-- Helper: the constructed filtered game state is the `Playing` variant
exactly for the internal states `Playing` and `WhistleInSet`. -/
lemma construct_is_playing_cases (s : State) (gc : GameControllerState)
    (team : Team) (now : ℕ) (bfko : Bool)
    (config : GameStateFilterParameters) (vr : Bool) (kt : Option Team)
    (h : (s.construct_filtered_game_state_for_team gc team now bfko config
      vr kt).is_playing = true) :
    s = State.playing ∨ ∃ t, s = State.whistleInSet t := by
  cases s
  case playing => exact Or.inl rfl
  case whistleInSet t => exact Or.inr ⟨t, rfl⟩
  case finished =>
    exfalso
    cases hgp : gc.game_phase <;>
      simp [State.construct_filtered_game_state_for_team,
        FilteredGameState.is_playing, hgp] at h
  case standby =>
    exfalso
    cases vr <;>
      simp [State.construct_filtered_game_state_for_team,
        FilteredGameState.is_playing] at h
  all_goals
    exfalso
    simp [State.construct_filtered_game_state_for_team,
      FilteredGameState.is_playing] at h

/-- Helper: the successor state is `Playing` only when the raw
game-controller state is `Playing`, or when a `WhistleInSet` matured
(raw state `Set`, no fresh motion-in-set penalty, delay elapsed). -/
lemma next_playing_cases (s : State) (gc : GameControllerState) (w : Bool)
    (now : ℕ) (config : GameStateFilterParameters) (far vr mis : Bool)
    (h : next_filtered_state s gc w now config far vr mis = State.playing) :
    gc.game_state = GameState.playing
    ∨ ∃ t, s = State.whistleInSet t ∧ gc.game_state = GameState.set
        ∧ mis = false
        ∧ config.playing_message_delay
            + config.game_controller_controller_delay ≤ now - t := by
  rcases gc with ⟨gs, gp, ss, pen, opp⟩
  rcases s with _ | _ | _ | t | _ | t | t | _ | _ <;>
    cases gs <;>
    simp only [next_filtered_state, State.from_game_state] at h <;>
    first
      | exact Or.inl rfl
      | (exfalso; revert h; simp; done)
      | ((split at h <;> simp_all); done)
      | ((rcases gp with _ | kt' | _ | _ <;> exfalso <;> revert h <;> simp);
          done)
      | skip

/-- C3: in state `WhistleInSet(t)` with the game controller in `Set`, a
fresh motion-in-set penalty reverts to `Set`; otherwise once
`playing_message_delay + game_controller_controller_delay` has elapsed
since the whistle the successor is `Playing`, and before that the state is
kept unchanged. -/
theorem whistle_in_set_successor (t now : ℕ) (h : t ≤ now)
    (gc : GameControllerState) (hgc : gc.game_state = GameState.set)
    (w : Bool) (config : GameStateFilterParameters) (far vr mis : Bool) :
    next_filtered_state (State.whistleInSet t) gc w now config far vr mis =
      if mis then State.set
      else if config.playing_message_delay
          + config.game_controller_controller_delay ≤ now - t then
        State.playing
      else
        State.whistleInSet t := by
  rcases gc with ⟨gs, gp, ss, pen, opp⟩
  simp only at hgc
  subst hgc
  simp only [next_filtered_state]
  rcases mis with _ | _
  · simp only [Bool.false_eq_true, if_false]
    split <;> split <;> first | rfl | omega
  · simp

/-- Witness for `whistle_in_set_successor`: with both delays summing to 5
and the whistle detected at time 0, at time 10 the successor state is
`Playing`. -/
theorem whistle_in_set_successor_witness :
    next_filtered_state (State.whistleInSet 0)
      ⟨GameState.set, GamePhase.normal, none, fun _ => none, fun _ => none⟩
      false 10 ⟨3, 7, 2, 1, 1, ⟨1, 1⟩, 1⟩ false false false
      = State.playing := by
  have h := whistle_in_set_successor 0 10 (Nat.zero_le 10)
    ⟨GameState.set, GamePhase.normal, none, fun _ => none, fun _ => none⟩
    rfl false ⟨3, 7, 2, 1, 1, ⟨1, 1⟩, 1⟩ false false false
  exact h.trans (by decide)

/-- C4: in state `Playing` with the game controller in `Playing`, a
detected whistle moves the filter to `WhistleInPlaying(now)` exactly when
the observed ball is not detected far from any goal, where a missing
localization or a missing ball counts as "not far"; in particular, with a
ball at field position (3.8, 0), field length 9, goal inner width 1.5 and
goal acceptance distance (0.5, 0.5), a whistle leaves the state at
`Playing`. -/
theorem playing_whistle_requires_ball_near_goal
    (gc : GameControllerState) (hgc : gc.game_state = GameState.playing)
    (ground_to_field : Option Isometry2) (ball : Option BallPosition)
    (fd : FieldDimensions) (config : GameStateFilterParameters) (now : ℕ)
    (vr mis : Bool) :
    (next_filtered_state State.playing gc true now config
        (match ground_to_field with
          | some g2f => ball_detected_far_from_any_goal g2f ball fd
              config.whistle_acceptance_goal_distance
          | none => false) vr mis
        = State.whistleInPlaying now
      ↔ (match ground_to_field with
          | some g2f => ball_detected_far_from_any_goal g2f ball fd
              config.whistle_acceptance_goal_distance
          | none => false) = false)
    ∧ (ground_to_field = none →
        next_filtered_state State.playing gc true now config
          (match ground_to_field with
            | some g2f => ball_detected_far_from_any_goal g2f ball fd
                config.whistle_acceptance_goal_distance
            | none => false) vr mis
          = State.whistleInPlaying now)
    ∧ (ball = none →
        next_filtered_state State.playing gc true now config
          (match ground_to_field with
            | some g2f => ball_detected_far_from_any_goal g2f ball fd
                config.whistle_acceptance_goal_distance
            | none => false) vr mis
          = State.whistleInPlaying now)
    ∧ (ball_detected_far_from_any_goal Isometry2.id
          (some ⟨⟨19 / 5, 0⟩⟩) ⟨9, 3 / 2⟩ ⟨1 / 2, 1 / 2⟩ = true
        ∧ ∀ (gc' : GameControllerState) (config' : GameStateFilterParameters),
            gc'.game_state = GameState.playing →
            next_filtered_state State.playing gc' true now config' true vr mis
              = State.playing) := by
  rcases gc with ⟨gs, gp, ss, pen, opp⟩
  simp only at hgc
  subst hgc
  refine ⟨?_, ?_, ?_, ?_, ?_⟩
  · cases ground_to_field with
    | none => simp [next_filtered_state]
    | some g2f =>
      rcases Bool.eq_false_or_eq_true (ball_detected_far_from_any_goal g2f
          ball fd config.whistle_acceptance_goal_distance) with hf | hf <;>
        simp [next_filtered_state, hf]
  · rintro rfl
    simp [next_filtered_state]
  · rintro rfl
    cases ground_to_field <;>
      simp [next_filtered_state, ball_detected_far_from_any_goal]
  · simp only [ball_detected_far_from_any_goal, Isometry2.apply, Isometry2.id,
      Bool.or_eq_true, decide_eq_true_eq]
    left
    norm_num
    rw [abs_lt]
    constructor <;> norm_num
  · rintro ⟨gs', gp', ss', pen', opp'⟩ config' hgc'
    simp only at hgc'
    subst hgc'
    simp [next_filtered_state]

/-- Witness for `playing_whistle_requires_ball_near_goal`: a whistle in
`Playing` with no ball observation transitions to `WhistleInPlaying`. -/
theorem playing_whistle_requires_ball_near_goal_witness :
    next_filtered_state State.playing
      ⟨GameState.playing, GamePhase.normal, none, fun _ => none,
        fun _ => none⟩ true 4
      ⟨3, 7, 2, 1, 1, ⟨1, 1⟩, 1⟩
      (match (none : Option Isometry2) with
        | some g2f => ball_detected_far_from_any_goal g2f none ⟨9, 3 / 2⟩
            (⟨3, 7, 2, 1, 1, ⟨1, 1⟩, 1⟩ :
              GameStateFilterParameters).whistle_acceptance_goal_distance
        | none => false) false false
      = State.whistleInPlaying 4 :=
  (playing_whistle_requires_ball_near_goal
    ⟨GameState.playing, GamePhase.normal, none, fun _ => none, fun _ => none⟩
    rfl none none ⟨9, 3 / 2⟩ ⟨3, 7, 2, 1, 1, ⟨1, 1⟩, 1⟩ 4
    false false).2.1 rfl

set_option maxHeartbeats 2000000 in
/-- C10: in every reachable filter state the stored
`whistle_in_set_ball_position` is `none` — the ball's field position
computed during `WhistleInSet` is discarded by the source — so the
kick-off ball-moved reference point defaults to the field origin. -/
theorem whistle_in_set_ball_position_always_none
    (c : FilterCore) (h : Reachable c) :
    c.whistle_in_set_ball_position = none
    ∧ c.whistle_in_set_ball_position.getD default = (⟨0, 0⟩ : Point2) := by
  induction h with
  | new => exact ⟨rfl, rfl⟩
  | step g2f ball fd config gc w now vr pn mis kt _ ih =>
    have h1 : ∀ cc : FilterCore, cc.whistle_in_set_ball_position = none →
        (filter_game_states cc g2f ball fd config gc w now vr pn mis
          kt).1.whistle_in_set_ball_position = none := by
      intro cc hcc
      simp only [filter_game_states]
      split
      · rfl
      · exact hcc
    exact ⟨h1 _ ih.1, by rw [h1 _ ih.1]; rfl⟩

/-- Witness for `whistle_in_set_ball_position_always_none`, at the initial
state. -/
theorem whistle_in_set_ball_position_always_none_witness :
    FilterCore.new.whistle_in_set_ball_position = none
    ∧ FilterCore.new.whistle_in_set_ball_position.getD default
        = (⟨0, 0⟩ : Point2) :=
  whistle_in_set_ball_position_always_none FilterCore.new Reachable.new

set_option maxHeartbeats 2000000 in
/-- Counterexample to C1 as stated: the reachable state with both trackers
in `Set` emits, upon a whistle while the game controller still reports
`Set`, the filtered own game state `Playing` in the very same cycle — the
elapsed time since the whistle is 0, below
`playing_message_delay + game_controller_controller_delay`. -/
theorem whistle_in_set_emits_playing_immediately :
    Reachable ⟨State.set, State.set, none⟩
    ∧ ((filter_game_states ⟨State.set, State.set, none⟩ none none ⟨9, 3 / 2⟩
        ⟨100, 100, 5, 10, 10, ⟨1 / 2, 1 / 2⟩, 1⟩
        ⟨GameState.set, GamePhase.normal, none, fun _ => none, fun _ => none⟩
        true 5 false PlayerNumber.one false none).2.own).is_playing = true
    ∧ (⟨GameState.set, GamePhase.normal, none, fun _ => none, fun _ => none⟩ :
        GameControllerState).game_state ≠ GameState.playing
    ∧ 5 - 5 < (100 : ℕ) + 5 := by
  refine ⟨?_, by decide, by decide, by decide⟩
  have h := @Reachable.step FilterCore.new none none ⟨9, 3 / 2⟩
    ⟨100, 100, 5, 10, 10, ⟨1 / 2, 1 / 2⟩, 1⟩
    ⟨GameState.set, GamePhase.normal, none, fun _ => none, fun _ => none⟩
    false 0 false PlayerNumber.one false none Reachable.new
  have heq : (filter_game_states FilterCore.new none none ⟨9, 3 / 2⟩
      ⟨100, 100, 5, 10, 10, ⟨1 / 2, 1 / 2⟩, 1⟩
      ⟨GameState.set, GamePhase.normal, none, fun _ => none, fun _ => none⟩
      false 0 false PlayerNumber.one false none).1
      = ⟨State.set, State.set, none⟩ := by decide
  exact heq ▸ h

/-- C1 (amended): the filtered own game state emitted by a cycle is
`Playing` only if the raw game-controller state is `Playing`, or the
filter's successor state this cycle is `WhistleInSet` (a whistle arrived
while in `Set`; the filter reports `Playing` immediately in that state),
or the filter was in `WhistleInSet(t)` with the game controller in `Set`,
no fresh motion-in-set penalty, and at least
`playing_message_delay + game_controller_controller_delay` elapsed. -/
theorem playing_emitted_only_if (core : FilterCore)
    (g2f : Option Isometry2) (ball : Option BallPosition)
    (fd : FieldDimensions) (config : GameStateFilterParameters)
    (gc : GameControllerState) (w : Bool) (now : ℕ) (vr : Bool)
    (pn : PlayerNumber) (mis : Bool) (kt : Option Team)
    (h : ((filter_game_states core g2f ball fd config gc w now vr pn mis
      kt).2.own).is_playing = true) :
    gc.game_state = GameState.playing
    ∨ (∃ t, (filter_game_states core g2f ball fd config gc w now vr pn mis
        kt).1.state = State.whistleInSet t)
    ∨ (∃ t, core.state = State.whistleInSet t
        ∧ gc.game_state = GameState.set ∧ mis = false
        ∧ config.playing_message_delay
            + config.game_controller_controller_delay ≤ now - t) := by
  have h' := construct_is_playing_cases _ gc Team.hulks now _ config vr kt h
  rcases h' with h' | ⟨t, h'⟩
  · rcases next_playing_cases _ gc w now config _ vr mis h' with h2 | ⟨t, h2⟩
    · exact Or.inl h2
    · exact Or.inr (Or.inr ⟨t, h2⟩)
  · exact Or.inr (Or.inl ⟨t, h'⟩)

/-- Witness for `playing_emitted_only_if`: with both trackers in `Playing`
and the game controller reporting `Playing`, the emitted own state is the
`Playing` variant and the disjunction holds. -/
theorem playing_emitted_only_if_witness :
    (⟨GameState.playing, GamePhase.normal, none, fun _ => none,
        fun _ => none⟩ : GameControllerState).game_state = GameState.playing
    ∨ (∃ t, (filter_game_states ⟨State.playing, State.playing, none⟩ none
        none ⟨9, 3 / 2⟩ ⟨100, 100, 5, 10, 10, ⟨1 / 2, 1 / 2⟩, 1⟩
        ⟨GameState.playing, GamePhase.normal, none, fun _ => none,
          fun _ => none⟩ false 7 false PlayerNumber.one false
        none).1.state = State.whistleInSet t)
    ∨ (∃ t, (⟨State.playing, State.playing, none⟩ :
          FilterCore).state = State.whistleInSet t
        ∧ (⟨GameState.playing, GamePhase.normal, none, fun _ => none,
            fun _ => none⟩ : GameControllerState).game_state = GameState.set
        ∧ false = false ∧ (100 : ℕ) + 5 ≤ 7 - t) :=
  playing_emitted_only_if ⟨State.playing, State.playing, none⟩ none none
    ⟨9, 3 / 2⟩ ⟨100, 100, 5, 10, 10, ⟨1 / 2, 1 / 2⟩, 1⟩
    ⟨GameState.playing, GamePhase.normal, none, fun _ => none, fun _ => none⟩
    false 7 false PlayerNumber.one false none (by decide)

end GameFilter

namespace MotionSel

/-- Helper: `is_standup_motion` holds exactly for `StandUpBack` and
`StandUpFront` (at any speed). -/
lemma is_standup_motion_iff (m : MotionType) :
    m.is_standup_motion = true ↔
      m = MotionType.standUpBack ∨ ∃ sp, m = MotionType.standUpFront sp := by
  cases m <;> simp [MotionType.is_standup_motion]

/-- Helper: `is_stable` holds exactly for the four stable motions. -/
lemma is_stable_iff (m : MotionType) :
    m.is_stable = true ↔
      m = MotionType.stand ∨ m = MotionType.walk ∨ m = MotionType.initial
        ∨ m = MotionType.penalized := by
  cases m <;> simp [MotionType.is_stable]

/-- C6: between two distinct stable motions (Stand, Walk, Initial,
Penalized) that are not the Stand↔Walk fast path, `transition_motion`
never moves directly to the requested motion — it interposes
`Dispatching` when the current motion is safe to exit.  Moreover, in the
scenario of the claim: from `Stand` with `SitDown` requested, safe-to-exit
and ground contact `true`, the cycle yields `Dispatching`, and from
`Dispatching` (safe to exit) the next cycle yields `SitDown`. -/
theorem stable_transitions_interpose_dispatching :
    (∀ (f t : MotionType) (safe gcontact : Bool),
      f.is_stable = true → t.is_stable = true → f ≠ t →
      is_fast_path_pair f t = false →
      transition_motion f t safe gcontact ≠ t
        ∧ (safe = true → transition_motion f t safe gcontact
            = MotionType.dispatching))
    ∧ (∀ (c : ℕ) (exits : MotionSafeExits),
      exits.index MotionType.stand = true →
      ((MotionSelector.mk MotionType.stand c).cycle MotionType.sitDown exits
        true).2.current_motion = MotionType.dispatching)
    ∧ (∀ (c : ℕ) (exits : MotionSafeExits),
      exits.index MotionType.dispatching = true →
      ((MotionSelector.mk MotionType.dispatching c).cycle MotionType.sitDown
        exits true).2.current_motion = MotionType.sitDown) := by
  refine ⟨by decide, ?_, ?_⟩
  · intro c exits h
    simp only [MotionSelector.cycle, MotionSelector.mk.injEq]
    rw [show exits.index MotionType.stand = true from h]
    rfl
  · intro c exits h
    simp only [MotionSelector.cycle, MotionSelector.mk.injEq]
    rw [show exits.index MotionType.dispatching = true from h]
    rfl

/-- Witness for `stable_transitions_interpose_dispatching`: from `Initial`
to `Penalized` with safe-to-exit the transition goes to `Dispatching`, and
the two scenario cycles produce `Dispatching` then `SitDown`. -/
theorem stable_transitions_interpose_dispatching_witness :
    (transition_motion MotionType.initial MotionType.penalized true true
        ≠ MotionType.penalized
      ∧ (true = true → transition_motion MotionType.initial
          MotionType.penalized true true = MotionType.dispatching))
    ∧ ((MotionSelector.mk MotionType.stand 0).cycle MotionType.sitDown
        (MotionSafeExits.fill true) true).2.current_motion
      = MotionType.dispatching
    ∧ ((MotionSelector.mk MotionType.dispatching 0).cycle MotionType.sitDown
        (MotionSafeExits.fill true) true).2.current_motion
      = MotionType.sitDown :=
  ⟨stable_transitions_interpose_dispatching.1 MotionType.initial
      MotionType.penalized true true (by decide) (by decide) (by decide)
      (by decide),
   stable_transitions_interpose_dispatching.2.1 0 (MotionSafeExits.fill true)
      (by decide),
   stable_transitions_interpose_dispatching.2.2 0 (MotionSafeExits.fill true)
      (by decide)⟩

/-- Counterexample to C7 as stated: entering `StandUpSitting` (one of the
claim's stand-up motions) from `Dispatching` (not a stand-up motion) does
not increment `stand_up_count` — `is_standup_motion` excludes
`StandUpSitting`. -/
theorem stand_up_sitting_entry_not_counted :
    ((MotionSelector.mk MotionType.dispatching 0).cycle
        (MotionType.standUpSitting StandUpSpeed.slow)
        (MotionSafeExits.fill true) true).2.current_motion
      = MotionType.standUpSitting StandUpSpeed.slow
    ∧ MotionType.is_standup_motion MotionType.dispatching = false
    ∧ ((MotionSelector.mk MotionType.dispatching 0).cycle
        (MotionType.standUpSitting StandUpSpeed.slow)
        (MotionSafeExits.fill true) true).1.stand_up_count = 0
    ∧ (0 : ℕ) ≠ 0 + 1 := by decide

/-- C7 (amended): per cycle, `stand_up_count` is incremented exactly when
the current motion enters `StandUpBack` or `StandUpFront` from a
non-stand-up motion (`StandUpSitting` does not count as a stand-up motion
for the counter), is reset to zero whenever the current motion is one of
the stable motions Stand, Walk, Initial or Penalized, and is kept
unchanged otherwise. -/
theorem stand_up_count_update (s : MotionSelector) (req : MotionType)
    (exits : MotionSafeExits) (gcontact : Bool) :
    (¬ (s.last_motion = MotionType.standUpBack
          ∨ ∃ sp, s.last_motion = MotionType.standUpFront sp) →
      ((s.cycle req exits gcontact).2.current_motion = MotionType.standUpBack
        ∨ ∃ sp, (s.cycle req exits gcontact).2.current_motion
            = MotionType.standUpFront sp) →
      (s.cycle req exits gcontact).1.stand_up_count = s.stand_up_count + 1)
    ∧ (((s.cycle req exits gcontact).2.current_motion = MotionType.stand
        ∨ (s.cycle req exits gcontact).2.current_motion = MotionType.walk
        ∨ (s.cycle req exits gcontact).2.current_motion = MotionType.initial
        ∨ (s.cycle req exits gcontact).2.current_motion
            = MotionType.penalized) →
      (s.cycle req exits gcontact).1.stand_up_count = 0)
    ∧ ((¬ ((¬ (s.last_motion = MotionType.standUpBack
            ∨ ∃ sp, s.last_motion = MotionType.standUpFront sp))
          ∧ ((s.cycle req exits gcontact).2.current_motion
              = MotionType.standUpBack
            ∨ ∃ sp, (s.cycle req exits gcontact).2.current_motion
                = MotionType.standUpFront sp))) →
      ¬ ((s.cycle req exits gcontact).2.current_motion = MotionType.stand
        ∨ (s.cycle req exits gcontact).2.current_motion = MotionType.walk
        ∨ (s.cycle req exits gcontact).2.current_motion = MotionType.initial
        ∨ (s.cycle req exits gcontact).2.current_motion
            = MotionType.penalized) →
      (s.cycle req exits gcontact).1.stand_up_count = s.stand_up_count) := by
  simp only [MotionSelector.cycle]
  generalize transition_motion s.last_motion req
    (exits.index s.last_motion) gcontact = cur
  rw [← is_standup_motion_iff, ← is_standup_motion_iff, ← is_stable_iff]
  simp only [stand_up_counting]
  refine ⟨?_, ?_, ?_⟩
  · intro hlast hcur
    rw [if_pos]
    simp_all
  · intro hstable
    have hnotstandup : cur.is_standup_motion = false := by
      cases cur <;> simp_all [MotionType.is_stable, MotionType.is_standup_motion]
    rw [if_neg (by simp [hnotstandup]), if_pos hstable]
  · intro hnotentry hnotstable
    rw [if_neg, if_neg]
    · simpa using hnotstable
    · intro hc
      simp only [Bool.and_eq_true, Bool.not_eq_true'] at hc
      exact hnotentry ⟨by simp [hc.1], hc.2⟩

/-- Witness for `stand_up_count_update`: entering `StandUpBack` from
`Dispatching` increments the counter from 3 to 4. -/
theorem stand_up_count_update_witness :
    ((MotionSelector.mk MotionType.dispatching 3).cycle MotionType.standUpBack
      (MotionSafeExits.fill true) true).1.stand_up_count = 3 + 1 :=
  (stand_up_count_update (MotionSelector.mk MotionType.dispatching 3)
    MotionType.standUpBack (MotionSafeExits.fill true) true).1
    (by decide) (by decide)

end MotionSel

namespace Kick

/-- C5 (the interpolating override helper that the specification
describes): `compute_kick_overrides` yields a leg-joint offset that is zero
on every joint except hip pitch and ankle pitch, and is linear in the kick
strength (the offsets at strength `s` are `s` times the offsets at
strength 1, which are the time-interpolated keyframe values). -/
theorem compute_kick_overrides_shape (ks : KickStep) (t strength : ℚ) :
    (compute_kick_overrides ks t strength).hip_yaw_pitch = 0
    ∧ (compute_kick_overrides ks t strength).hip_roll = 0
    ∧ (compute_kick_overrides ks t strength).knee_pitch = 0
    ∧ (compute_kick_overrides ks t strength).ankle_roll = 0
    ∧ (compute_kick_overrides ks t strength).hip_pitch
        = strength * (compute_kick_overrides ks t 1).hip_pitch
    ∧ (compute_kick_overrides ks t strength).ankle_pitch
        = strength * (compute_kick_overrides ks t 1).ankle_pitch := by
  rcases ks with ⟨ho, ao⟩
  cases ho <;> cases ao <;>
    simp [compute_kick_overrides] <;> ring

end Kick

namespace SensorReceiver

/-- C9 is a code bug: `SensorDataReceiver::cycle` never updates
`last_cycle_start`, so the published `last_cycle_duration` is the time
since `UNIX_EPOCH`, not the time since the previous cycle's start.  With a
first cycle at time 100 and a second at time 112, the second cycle reports
duration 112 instead of 112 − 100 = 12. -/
theorem last_cycle_duration_uses_epoch :
    ((SensorDataReceiver.new.cycle 100).1.cycle 112).2.last_cycle_duration
      = 112
    ∧ (112 : ℕ) ≠ 112 - 100 := by decide

end SensorReceiver

namespace StepPlan

/-- Helper: `is_sign_positive` is the decision of `0 ≤ x`. -/
lemma is_sign_positive_iff (x : ℝ) : is_sign_positive x = true ↔ 0 ≤ x := by
  simp [is_sign_positive]

/-- Helper: the normalised angle of a turn clamped to
`[max_turn_left, max_turn_right]` lies in `[0, 1]`. -/
lemma normalized_angle_mem (mtl mtr t' : ℝ) (hmtl : mtl < 0) (hmtr : 0 < mtr)
    (ht'l : mtl ≤ t') (ht'r : t' ≤ mtr) :
    0 ≤ (if is_sign_positive t' then t' / mtr else t' / mtl)
    ∧ (if is_sign_positive t' then t' / mtr else t' / mtl) ≤ 1 := by
  by_cases ht : 0 ≤ t'
  · rw [if_pos ((is_sign_positive_iff t').mpr ht)]
    exact ⟨div_nonneg ht hmtr.le, (div_le_one hmtr).mpr ht'r⟩
  · rw [if_neg (by simp [is_sign_positive_iff, ht])]
    push_neg at ht
    constructor
    · exact le_of_lt (div_pos_of_neg_of_neg ht hmtl)
    · rw [div_le_iff_of_neg hmtl]
      linarith

/-- Helper: the step produced by `calculate_max_step_size_in_walk_volume`
for a request outside the walk volume lies exactly on the volume boundary:
its walk volume is 1. -/
lemma volume_of_scaled (ms : Step) (back te re mtl mtr f l t' : ℝ)
    (hf : 0 < ms.forward) (hl : 0 < ms.left) (hb : 0 < back)
    (hmtl : mtl < 0) (hmtr : 0 < mtr) (hte : 0 < te) (hre : 0 < re)
    (ht'l : mtl ≤ t') (ht'r : t' ≤ mtr)
    (hout : ¬ calculate_walk_volume ⟨f, l, t'⟩ ms back te re mtl mtr ≤ 1) :
    calculate_walk_volume
      ⟨(calculate_max_step_size_in_walk_volume ⟨f, l, t'⟩ ms back te re mtl
          mtr).1,
        (calculate_max_step_size_in_walk_volume ⟨f, l, t'⟩ ms back te re mtl
          mtr).2, t'⟩ ms back te re mtl mtr = 1 := by
  simp only [calculate_walk_volume, calculate_max_step_size_in_walk_volume]
    at hout ⊢
  obtain ⟨ha0, ha1⟩ := normalized_angle_mem mtl mtr t' hmtl hmtr ht'l ht'r
  set a : ℝ := if is_sign_positive t' then t' / mtr else t' / mtl with ha
  set A : ℝ := |a| ^ re with hA
  have hA1 : A ≤ 1 := Real.rpow_le_one (abs_nonneg a)
    (by rwa [abs_of_nonneg ha0]) hre.le
  have hA0 : 0 ≤ A := Real.rpow_nonneg (abs_nonneg a) re
  set mf : ℝ := if is_sign_positive f then ms.forward else back with hmf
  have hmf0 : 0 < mf := by
    rw [hmf]; split <;> assumption
  set x : ℝ := f / mf with hx
  set y : ℝ := l / ms.left with hy
  set D : ℝ := |x| ^ te + |y| ^ te with hD
  have hD0 : 0 ≤ D := add_nonneg (Real.rpow_nonneg (abs_nonneg x) te)
    (Real.rpow_nonneg (abs_nonneg y) te)
  push_neg at hout
  have hV1 : 1 < D ^ (re / te) + A := hout
  have hDrpos : 0 < D ^ (re / te) := lt_of_le_of_lt (by linarith)
    (by linarith : 1 - A < D ^ (re / te))
  have hDpos : 0 < D := by
    rcases hD0.eq_or_lt with h | h
    · exfalso
      rw [← h, Real.zero_rpow (div_ne_zero hre.ne' hte.ne')] at hDrpos
      exact lt_irrefl 0 hDrpos
    · exact h
  set base : ℝ := (1 - A) ^ (te / re) / D with hbase
  have hbase0 : 0 ≤ base :=
    div_nonneg (Real.rpow_nonneg (by linarith) _) hD0
  set s : ℝ := base ^ (1 / te) with hs
  have hs0 : 0 ≤ s := Real.rpow_nonneg hbase0 _
  have hste : s ^ te = base := by
    rw [hs, ← Real.rpow_mul hbase0, one_div_mul_cancel hte.ne', Real.rpow_one]
  have habs_scale : ∀ u : ℝ, |u * s| ^ te = |u| ^ te * s ^ te := by
    intro u
    rw [abs_mul, abs_of_nonneg hs0, Real.mul_rpow (abs_nonneg u) hs0]
  -- the forward selector of the scaled step agrees with the original one
  have hxs : |f * s / (if is_sign_positive (f * s) then ms.forward else back)|
      ^ te = |x| ^ te * s ^ te := by
    rcases hs0.eq_or_lt with h0 | hspos
    · rw [← h0]
      have hz : f * (0 : ℝ)
          / (if is_sign_positive (f * 0) then ms.forward else back) = 0 := by
        simp
      rw [hz, abs_zero, Real.zero_rpow hte.ne', mul_zero]
    · have hsign : is_sign_positive (f * s) = is_sign_positive f := by
        simp only [is_sign_positive]
        congr 1
        exact propext (mul_nonneg_iff_of_pos_right hspos)
      rw [hsign, ← hmf, show f * s / mf = f / mf * s from
        mul_div_right_comm f s mf, ← hx, habs_scale]
  have hys : |l * s / ms.left| ^ te = |y| ^ te * s ^ te := by
    rw [show l * s / ms.left = l / ms.left * s from mul_div_right_comm l s
      ms.left, ← hy, habs_scale]
  rw [hxs, hys, ← add_mul, ← hD, hste, hbase,
    mul_comm D ((1 - A) ^ (te / re) / D), div_mul_cancel₀ _ hDpos.ne',
    ← Real.rpow_mul (by linarith : (0:ℝ) ≤ 1 - A),
    show te / re * (re / te) = 1 by field_simp, Real.rpow_one]
  ring

/-- C2: under positive step bounds and exponents
(`max_turn_left < 0 < max_turn_right`), the step returned by
`clamp_step_to_walk_volume` has walk volume at most 1 (hence at most
`1 + ε` for any `ε ≥ 0`); a request whose turn-clamped form is already
inside the volume is returned with only the turn clamped, and an outside
request is returned with the clamped turn and the translation scaled
uniformly by `s = ((1 − |Θ|^rₑ)^(tₑ/rₑ) / (|X|^tₑ + |Y|^tₑ))^(1/tₑ)`,
where `X`, `Y`, `Θ` are the translation and turn normalised by the
side-appropriate bounds. -/
theorem clamp_step_volume_le_one (request ms : Step)
    (back te re mtl mtr : ℝ)
    (hf : 0 < ms.forward) (hl : 0 < ms.left) (hb : 0 < back)
    (hmtl : mtl < 0) (hmtr : 0 < mtr) (hte : 0 < te) (hre : 0 < re) :
    calculate_walk_volume
      (clamp_step_to_walk_volume request ms back te re mtl mtr)
      ms back te re mtl mtr ≤ 1
    ∧ (calculate_walk_volume
        ⟨request.forward, request.left, clampR request.turn mtl mtr⟩
        ms back te re mtl mtr ≤ 1 →
      clamp_step_to_walk_volume request ms back te re mtl mtr
        = ⟨request.forward, request.left, clampR request.turn mtl mtr⟩)
    ∧ (¬ calculate_walk_volume
        ⟨request.forward, request.left, clampR request.turn mtl mtr⟩
        ms back te re mtl mtr ≤ 1 →
      clamp_step_to_walk_volume request ms back te re mtl mtr
        = ⟨request.forward
              * ((1 - |if is_sign_positive (clampR request.turn mtl mtr) then
                    clampR request.turn mtl mtr / mtr
                  else clampR request.turn mtl mtr / mtl| ^ re) ^ (te / re)
                / (|request.forward / (if is_sign_positive request.forward
                      then ms.forward else back)| ^ te
                  + |request.left / ms.left| ^ te)) ^ (1 / te),
            request.left
              * ((1 - |if is_sign_positive (clampR request.turn mtl mtr) then
                    clampR request.turn mtl mtr / mtr
                  else clampR request.turn mtl mtr / mtl| ^ re) ^ (te / re)
                / (|request.forward / (if is_sign_positive request.forward
                      then ms.forward else back)| ^ te
                  + |request.left / ms.left| ^ te)) ^ (1 / te),
            clampR request.turn mtl mtr⟩) := by
  have hclamp_l : mtl ≤ clampR request.turn mtl mtr := by
    rw [clampR]
    exact le_min (le_max_right _ _) (by linarith)
  have hclamp_r : clampR request.turn mtl mtr ≤ mtr := min_le_right _ _
  refine ⟨?_, ?_, ?_⟩
  · simp only [clamp_step_to_walk_volume]
    split
    next hin => exact hin
    next hout =>
      exact le_of_eq (volume_of_scaled ms back te re mtl mtr request.forward
        request.left (clampR request.turn mtl mtr) hf hl hb hmtl hmtr hte hre
        hclamp_l hclamp_r hout)
  · intro hin
    simp only [clamp_step_to_walk_volume]
    rw [if_pos hin]
  · intro hout
    simp only [clamp_step_to_walk_volume]
    rw [if_neg hout]
    simp only [calculate_max_step_size_in_walk_volume]

/-- Witness for `clamp_step_volume_le_one`, at the spec's scenario bounds
scaled to 1 (request `(3, 4, 5)`, all maxima 1, `tₑ = rₑ = 2`, turn bounds
`±1`). -/
theorem clamp_step_volume_le_one_witness :
    calculate_walk_volume
      (clamp_step_to_walk_volume ⟨3, 4, 5⟩ ⟨1, 1, 1⟩ 1 2 2 (-1) 1)
      ⟨1, 1, 1⟩ 1 2 2 (-1) 1 ≤ 1 :=
  (clamp_step_volume_le_one ⟨3, 4, 5⟩ ⟨1, 1, 1⟩ 1 2 2 (-1) 1 zero_lt_one
    zero_lt_one zero_lt_one neg_one_lt_zero zero_lt_one zero_lt_two
    zero_lt_two).1

/-- Helper: `calculate_max_step_size` at `Normal` speed returns the maximum
step size plus the initial-side bonus, whatever the temperatures. -/
lemma calculate_max_step_size_normal (hot : Bool)
    (temps : TemperatureSensors) (p : Parameters) (bonus : Step) :
    (calculate_max_step_size hot temps p WalkSpeed.normal bonus).1
      = p.max_step_size.add bonus := by
  simp [calculate_max_step_size]

/-- Helper: `calculate_max_step_size` at each speed, when the leg-joint
hysteresis evaluates to "not hot" (so `Fast` is not degraded): `Slow`
adds the slow delta and ignores the bonus, `Normal` adds the bonus, and
`Fast` adds the fast delta and the bonus. -/
lemma calculate_max_step_size_eval (hot : Bool)
    (temps : TemperatureSensors) (p : Parameters) (speed : WalkSpeed)
    (bonus : Step)
    (hhot : greater_than_with_absolute_hysteresis hot
      (match temps.left_leg ++ temps.right_leg with
        | [] => 0
        | t :: rest => rest.foldl max t) 70 75 = false) :
    (calculate_max_step_size hot temps p speed bonus).1
      = match speed with
        | WalkSpeed.slow => p.max_step_size.add p.step_size_delta_slow
        | WalkSpeed.normal => p.max_step_size.add bonus
        | WalkSpeed.fast =>
          (p.max_step_size.add p.step_size_delta_fast).add bonus := by
  cases speed <;> simp [calculate_max_step_size, hhot]

/-- Helper: clamping a purely lateral request that exceeds the lateral
bound returns exactly the lateral bound: the step `(0, L, 0)` with
`max_left < L` is clamped to `(0, max_left, 0)`. -/
lemma clamp_pure_lateral (ms : Step) (back te re mt L : ℝ)
    (hml : 0 < ms.left) (hmt : 0 < mt) (hte : 0 < te) (hre : 0 < re)
    (hL : ms.left < L) :
    clamp_step_to_walk_volume ⟨0, L, 0⟩ ms back te re (-mt) mt
      = ⟨0, ms.left, 0⟩ := by
  have hL0 : 0 < L := lt_trans hml hL
  have hy0 : 0 < L / ms.left := div_pos hL0 hml
  have hy1 : 1 < L / ms.left := (one_lt_div hml).mpr hL
  have hsp : is_sign_positive (0 : ℝ) = true := by
    simp [is_sign_positive]
  have hclamp : clampR (0 : ℝ) (-mt) mt = 0 := by
    rw [clampR, max_eq_left (by linarith : -mt ≤ 0), min_eq_left hmt.le]
  have hvol : calculate_walk_volume ⟨0, L, 0⟩ ms back te re (-mt) mt
      = (L / ms.left) ^ re := by
    simp only [calculate_walk_volume, hsp, if_true, zero_div, abs_zero]
    rw [Real.zero_rpow hte.ne', Real.zero_rpow hre.ne', zero_add, add_zero,
      abs_of_pos hy0, ← Real.rpow_mul hy0.le,
      show te * (re / te) = re by field_simp]
  have hgt1 : 1 < (L / ms.left) ^ re :=
    (Real.one_lt_rpow_iff_of_pos hy0).mpr (Or.inl ⟨hy1, hre⟩)
  have hscale : calculate_max_step_size_in_walk_volume ⟨0, L, 0⟩ ms back te
      re (-mt) mt = (0, ms.left) := by
    simp only [calculate_max_step_size_in_walk_volume, hsp, if_true,
      zero_div, abs_zero]
    rw [Real.zero_rpow hte.ne', Real.zero_rpow hre.ne', zero_add, sub_zero,
      Real.one_rpow, abs_of_pos hy0, one_div ((L / ms.left) ^ te),
      Real.inv_rpow (Real.rpow_nonneg hy0.le te),
      ← Real.rpow_mul hy0.le, show te * (1 / te) = 1 by field_simp,
      Real.rpow_one, zero_mul]
    rw [show L * (L / ms.left)⁻¹ = ms.left by field_simp]
  simp only [clamp_step_to_walk_volume, hclamp]
  rw [if_neg (by rw [hvol]; exact not_le.mpr hgt1), hscale]

/-- Counterexample to C8 as stated: with the previously planned step zero
(within machine epsilon), a short straight walk command is planned with
lateral component 0 — the `initial_side_bonus` (0.01 here) is *not* added
to the planned step (it only enlarges the lateral clamping bound). -/
theorem planned_step_not_nudged :
    ((StepPlanner.mk ⟨0, 0, 0⟩ false).cycle
        (MotionCommand.walk
          [PathSegment.lineSegment ⟨⟨0, 0⟩, ⟨1 / 100, 0⟩⟩]
          (OrientationMode.override ⟨1, 0⟩) WalkSpeed.normal)
        ⟨none, ⟨1, 1, 1⟩, ⟨0, 0, 0⟩, ⟨0, 0, 0⟩, 1, 1, 1, 1, 1 / 100,
          ⟨1, 1, 1⟩⟩
        IsometryR.id Mode.notWalking ⟨[20], [20]⟩).map Prod.snd
      = some ⟨1 / 100, 0, 0⟩
    ∧ |(0 : ℝ)| + |(0 : ℝ)| + |(0 : ℝ)| ≤ f32_epsilon
    ∧ (1 : ℝ) / 100 ≠ 0 ∧ (0 : ℝ) ≠ 1 / 100 := by
  have heps : |(0 : ℝ)| + |(0 : ℝ)| + |(0 : ℝ)| ≤ f32_epsilon := by
    simp [f32_epsilon]
    positivity
  have hc : (⟨1, 0⟩ : ℂ) = 1 := by
    apply Complex.ext <;> simp
  have habs : |(1 : ℝ) / 100| = 1 / 100 := abs_of_nonneg (by norm_num)
  refine ⟨?_, heps, by norm_num, by norm_num⟩
  simp only [StepPlanner.cycle, heps, if_true, calculate_max_step_size_normal,
    Step.add, Step.default, select_segment, IsometryR.apply_pose,
    IsometryR.apply, IsometryR.id, Orientation2.angle, hc, one_mul,
    Complex.arg_one, clamp_step_to_walk_volume, calculate_walk_volume,
    clampR, is_sign_positive, f32_epsilon]
  norm_num [habs]

/-- C8 (amended): when the previously planned step was zero (the sum of
absolute components within machine epsilon), the fixed lateral
`initial_side_bonus` is added to the *maximum step size's left component*
for Normal and Fast speeds — observable as the lateral clamping bound
becoming `max_step_size.left + initial_side_bonus` (Normal), respectively
`max_step_size.left + step_size_delta_fast.left + initial_side_bonus`
(Fast, legs not hot); the planned step itself receives no direct nudge.
With a non-zero previous step no bonus is added (bounds
`max_step_size.left`, respectively
`max_step_size.left + step_size_delta_fast.left`); at Slow speed the
bonus is never added and the bound is
`max_step_size.left + step_size_delta_slow.left` in both cases.
(The injected step `(0, L, 0)` overshoots every bound, so the planned
step comes out exactly at the active lateral bound.) -/
theorem initial_side_bonus_enlarges_lateral_bound
    (s0 : Step) (hot : Bool) (path : List PathSegment)
    (omode : OrientationMode) (g2us : IsometryR)
    (temps : TemperatureSensors) (p : Parameters) (L : ℝ)
    (speed : WalkSpeed)
    (hpath : path ≠ [])
    (hinj : p.injected_step = some ⟨0, L, 0⟩)
    (hhot : greater_than_with_absolute_hysteresis hot
      (match temps.left_leg ++ temps.right_leg with
        | [] => 0
        | t :: rest => rest.foldl max t) 70 75 = false)
    (hmf : 0 < p.max_step_size.forward)
    (hmf_s : 0 < p.max_step_size.forward + p.step_size_delta_slow.forward)
    (hmf_f : 0 < p.max_step_size.forward + p.step_size_delta_fast.forward)
    (hml : 0 < p.max_step_size.left)
    (hml_s : 0 < p.max_step_size.left + p.step_size_delta_slow.left)
    (hml_f : 0 < p.max_step_size.left + p.step_size_delta_fast.left)
    (hmt : 0 < p.max_step_size.turn) (hisb : 0 < p.initial_side_bonus)
    (hte : 0 < p.translation_exponent) (hre : 0 < p.rotation_exponent)
    (hL : p.max_step_size.left + p.initial_side_bonus < L)
    (hL_s : p.max_step_size.left + p.step_size_delta_slow.left < L)
    (hL_f : p.max_step_size.left + p.step_size_delta_fast.left
      + p.initial_side_bonus < L) :
    (|s0.forward| + |s0.left| + |s0.turn| ≤ f32_epsilon →
      ((StepPlanner.mk s0 hot).cycle
          (MotionCommand.walk path omode speed) p g2us
          Mode.notWalking temps).map Prod.snd
        = some ⟨0,
            (match speed with
              | WalkSpeed.slow =>
                p.max_step_size.left + p.step_size_delta_slow.left
              | WalkSpeed.normal =>
                p.max_step_size.left + p.initial_side_bonus
              | WalkSpeed.fast =>
                p.max_step_size.left + p.step_size_delta_fast.left
                  + p.initial_side_bonus),
            0⟩)
    ∧ (¬ |s0.forward| + |s0.left| + |s0.turn| ≤ f32_epsilon →
      ((StepPlanner.mk s0 hot).cycle
          (MotionCommand.walk path omode speed) p g2us
          Mode.notWalking temps).map Prod.snd
        = some ⟨0,
            (match speed with
              | WalkSpeed.slow =>
                p.max_step_size.left + p.step_size_delta_slow.left
              | WalkSpeed.normal => p.max_step_size.left
              | WalkSpeed.fast =>
                p.max_step_size.left + p.step_size_delta_fast.left),
            0⟩) := by
  obtain ⟨s1, rest, rfl⟩ : ∃ a l, path = a :: l := by
    cases path with
    | nil => exact absurd rfl hpath
    | cons a l => exact ⟨a, l, rfl⟩
  have hsel : ∀ M : ℝ, 0 < M → select_segment M 0 (s1 :: rest)
      = some ((select_segment M (0 + s1.length) rest).getD s1) := by
    intro M hM
    rw [select_segment]
    exact if_pos hM
  constructor <;> intro h0 <;> cases speed
  · have hselb : select_segment ((p.max_step_size.add p.step_size_delta_slow).forward) 0 (s1 :: rest)
        = some ((select_segment ((p.max_step_size.add p.step_size_delta_slow).forward)
          (0 + s1.length) rest).getD s1) :=
      hsel _ (by simp only [Step.add]; linarith)
    simp only [StepPlanner.cycle, h0, if_true,
      calculate_max_step_size_eval hot temps p WalkSpeed.slow
        ⟨0, p.initial_side_bonus, 0⟩ hhot, hselb, hinj]
    rw [clamp_pure_lateral (p.max_step_size.add p.step_size_delta_slow)
      p.max_step_size_backwards p.translation_exponent p.rotation_exponent
      p.max_step_size.turn L (by simp only [Step.add]; linarith) hmt hte hre
      (by simp only [Step.add]; linarith)]
    simp [Step.add]
  · have hselb : select_segment ((p.max_step_size.add ⟨0, p.initial_side_bonus, 0⟩).forward) 0 (s1 :: rest)
        = some ((select_segment ((p.max_step_size.add ⟨0, p.initial_side_bonus, 0⟩).forward)
          (0 + s1.length) rest).getD s1) :=
      hsel _ (by simp only [Step.add]; linarith)
    simp only [StepPlanner.cycle, h0, if_true,
      calculate_max_step_size_eval hot temps p WalkSpeed.normal
        ⟨0, p.initial_side_bonus, 0⟩ hhot, hselb, hinj]
    rw [clamp_pure_lateral (p.max_step_size.add ⟨0, p.initial_side_bonus, 0⟩)
      p.max_step_size_backwards p.translation_exponent p.rotation_exponent
      p.max_step_size.turn L (by simp only [Step.add]; linarith) hmt hte hre
      (by simp only [Step.add]; linarith)]
    simp [Step.add]
  · have hselb : select_segment (((p.max_step_size.add p.step_size_delta_fast).add
        ⟨0, p.initial_side_bonus, 0⟩).forward) 0 (s1 :: rest)
        = some ((select_segment (((p.max_step_size.add p.step_size_delta_fast).add
        ⟨0, p.initial_side_bonus, 0⟩).forward)
          (0 + s1.length) rest).getD s1) :=
      hsel _ (by simp only [Step.add]; linarith)
    simp only [StepPlanner.cycle, h0, if_true,
      calculate_max_step_size_eval hot temps p WalkSpeed.fast
        ⟨0, p.initial_side_bonus, 0⟩ hhot, hselb, hinj]
    rw [clamp_pure_lateral ((p.max_step_size.add p.step_size_delta_fast).add
        ⟨0, p.initial_side_bonus, 0⟩)
      p.max_step_size_backwards p.translation_exponent p.rotation_exponent
      p.max_step_size.turn L (by simp only [Step.add]; linarith) hmt hte hre
      (by simp only [Step.add]; linarith)]
    simp [Step.add]
  · have hselb : select_segment ((p.max_step_size.add p.step_size_delta_slow).forward) 0 (s1 :: rest)
        = some ((select_segment ((p.max_step_size.add p.step_size_delta_slow).forward)
          (0 + s1.length) rest).getD s1) :=
      hsel _ (by simp only [Step.add, Step.default]; linarith)
    simp only [StepPlanner.cycle, h0, if_false,
      calculate_max_step_size_eval hot temps p WalkSpeed.slow
        Step.default hhot, hselb, hinj]
    rw [clamp_pure_lateral (p.max_step_size.add p.step_size_delta_slow)
      p.max_step_size_backwards p.translation_exponent p.rotation_exponent
      p.max_step_size.turn L (by simp only [Step.add, Step.default]; linarith) hmt hte hre
      (by simp only [Step.add, Step.default]; linarith)]
    simp [Step.add, Step.default]
  · have hselb : select_segment ((p.max_step_size.add Step.default).forward) 0 (s1 :: rest)
        = some ((select_segment ((p.max_step_size.add Step.default).forward)
          (0 + s1.length) rest).getD s1) :=
      hsel _ (by simp only [Step.add, Step.default]; linarith)
    simp only [StepPlanner.cycle, h0, if_false,
      calculate_max_step_size_eval hot temps p WalkSpeed.normal
        Step.default hhot, hselb, hinj]
    rw [clamp_pure_lateral (p.max_step_size.add Step.default)
      p.max_step_size_backwards p.translation_exponent p.rotation_exponent
      p.max_step_size.turn L (by simp only [Step.add, Step.default]; linarith) hmt hte hre
      (by simp only [Step.add, Step.default]; linarith)]
    simp [Step.add, Step.default]
  · have hselb : select_segment (((p.max_step_size.add p.step_size_delta_fast).add Step.default).forward) 0 (s1 :: rest)
        = some ((select_segment (((p.max_step_size.add p.step_size_delta_fast).add Step.default).forward)
          (0 + s1.length) rest).getD s1) :=
      hsel _ (by simp only [Step.add, Step.default]; linarith)
    simp only [StepPlanner.cycle, h0, if_false,
      calculate_max_step_size_eval hot temps p WalkSpeed.fast
        Step.default hhot, hselb, hinj]
    rw [clamp_pure_lateral ((p.max_step_size.add p.step_size_delta_fast).add Step.default)
      p.max_step_size_backwards p.translation_exponent p.rotation_exponent
      p.max_step_size.turn L (by simp only [Step.add, Step.default]; linarith) hmt hte hre
      (by simp only [Step.add, Step.default]; linarith)]
    simp [Step.add, Step.default]

/-- Witness for `initial_side_bonus_enlarges_lateral_bound`: with unit
bounds, zero speed deltas, bonus 1 and an injected lateral request of 5,
a zero previous step at Fast speed (legs at 20 °C, not hot) yields the
planned step `(0, 1 + 0 + 1, 0)` — the lateral bound grew by the bonus. -/
theorem initial_side_bonus_enlarges_lateral_bound_witness :
    ((StepPlanner.mk ⟨0, 0, 0⟩ false).cycle
        (MotionCommand.walk [PathSegment.lineSegment ⟨⟨0, 0⟩, ⟨1, 0⟩⟩]
          (OrientationMode.override ⟨1, 0⟩) WalkSpeed.fast)
        ⟨some ⟨0, 5, 0⟩, ⟨1, 1, 1⟩, ⟨0, 0, 0⟩, ⟨0, 0, 0⟩, 1, 1, 1, 1, 1,
          ⟨1, 1, 1⟩⟩
        IsometryR.id Mode.notWalking ⟨[20], [20]⟩).map Prod.snd
      = some ⟨0, (1 : ℝ) + 0 + 1, 0⟩ :=
  (initial_side_bonus_enlarges_lateral_bound ⟨0, 0, 0⟩ false
    [PathSegment.lineSegment ⟨⟨0, 0⟩, ⟨1, 0⟩⟩]
    (OrientationMode.override ⟨1, 0⟩) IsometryR.id ⟨[20], [20]⟩
    ⟨some ⟨0, 5, 0⟩, ⟨1, 1, 1⟩, ⟨0, 0, 0⟩, ⟨0, 0, 0⟩, 1, 1, 1, 1, 1,
      ⟨1, 1, 1⟩⟩ 5 WalkSpeed.fast (by simp) rfl
    (by simp [greater_than_with_absolute_hysteresis]; norm_num)
    zero_lt_one (by norm_num) (by norm_num) zero_lt_one (by norm_num)
    (by norm_num) zero_lt_one zero_lt_one zero_lt_one zero_lt_one
    (by norm_num) (by norm_num) (by norm_num)).1
    (by simp [f32_epsilon]; positivity)

end StepPlan

end Hulk
